import Mathlib

/-!
Shallow embedding of `src/app.py`, a Flask CRUD service over two in-memory
collections (`users` and `tasks`), together with proofs about its observable
behaviour.

Modelling conventions (all justified against Python semantics):
* A JSON scalar is modelled by `JVal` (null, booleans, integers, strings).
  The claims under study only exercise scalar field values; JSON numbers are
  modelled as integers because every claim uses integer-valued fields.
* A request body is `Option Obj` where `Obj` is an association list of
  key/value pairs: `none` models a missing or unparseable body (for the task
  endpoints this is exactly the case `request.get_json(silent=True) is None`,
  which also covers a body that is the JSON literal `null`).
* Python `dict.get(k)` returns `None` both when the key is absent and when the
  stored value is JSON null; `pyGet` therefore collapses both to `jnull`.
  `dict.get(k, d)` returns the stored value (even `None`) when the key is
  present; `pyGetD` models that.
* `isinstance(x, int)` in Python is true for booleans as well, and
  `True == 1`, `False == 0`; `isIntLike`/`pyToInt` model this, and a
  bool-valued `user_id` is stored via its integer value (observationally
  equivalent for every comparison the code performs).
* In-place mutation of a found record inside a Python list is modelled by
  `replaceFirstBy`; `list.remove(x)` by `eraseFirstBy`.
-/

namespace RestApi

inductive JVal where
  | jnull : JVal
  | jbool : Bool → JVal
  | jint : Int → JVal
  | jstr : String → JVal
deriving DecidableEq

open JVal

/-- Python `str.strip()`: drop leading and trailing whitespace. (Python also
strips some rarer Unicode whitespace; every string in this development is
ASCII, where the two notions agree.) -/
def pyStrip (s : String) : String :=
  ⟨((s.data.dropWhile Char.isWhitespace).reverse.dropWhile Char.isWhitespace).reverse⟩

/-- Python `str(x)` on a JSON scalar. -/
def pyStr : JVal → String
  | jnull => "None"
  | jbool true => "True"
  | jbool false => "False"
  | jint n => toString n
  | jstr s => s

/-- Python `bool(x)` (truthiness) on a JSON scalar. -/
def truthy : JVal → Bool
  | jnull => false
  | jbool b => b
  | jint n => n != 0
  | jstr s => s != ""

/-- Python `isinstance(x, int)`: true for integers and booleans. -/
def isIntLike : JVal → Bool
  | jint _ => true
  | jbool _ => true
  | _ => false

/-- The integer value of an int-like Python object (`True == 1`, `False == 0`). -/
def pyToInt : JVal → Int
  | jint n => n
  | jbool true => 1
  | jbool false => 0
  | _ => 0

/-- A parsed JSON object body: association list of fields. -/
abbrev Obj := List (String × JVal)

/-- Raw field access: the stored value of key `k` if present. -/
def objGet? (data : Obj) (k : String) : Option JVal :=
  List.lookup k data

/-- Python `k in data`. -/
def hasKey (data : Obj) (k : String) : Bool :=
  (objGet? data k).isSome

/-- Python `data.get(k)`: absent and JSON-null both become `jnull` (Python `None`). -/
def pyGet (data : Obj) (k : String) : JVal :=
  (objGet? data k).getD jnull

/-- Python `data.get(k, d)`: default only when the key is absent. -/
def pyGetD (data : Obj) (k : String) (d : JVal) : JVal :=
  (objGet? data k).getD d

/-- A user record (`name`/`age` are stored as the raw JSON values, as the code
does no conversion on them). -/
structure User where
  id : Int
  name : JVal
  age : JVal
deriving DecidableEq

/-- A task record. `title`/`description` are stored through `str(...)`,
`completed` through `bool(...)`, `user_id` as its Python integer value. -/
structure Task where
  id : Int
  title : String
  description : String
  user_id : Int
  completed : Bool
deriving DecidableEq

/-- The in-memory Store: module-level `users` and `tasks` lists. -/
structure Store where
  users : List User
  tasks : List Task
deriving DecidableEq

/-- The seed data the module initialises its two lists with. -/
def initStore : Store :=
  { users := [⟨1, jstr "Alice", jint 25⟩, ⟨2, jstr "Bob", jint 30⟩]
    tasks := [⟨1, "Learn REST", "Study REST principles", 1, true⟩,
              ⟨2, "Build API", "Complete the assignment", 2, false⟩] }

/-- Response payloads observable through the HTTP layer. -/
inductive RData where
  | empty : RData
  | aborted : RData
  | errMsg : String → RData
  | userData : User → RData
  | taskData : Task → RData
  | tasksData : List Task → RData
deriving DecidableEq

/-- An HTTP response: status code plus payload. -/
structure Resp where
  status : Nat
  data : RData
deriving DecidableEq

/-- The task carried by a response, when it carries one. -/
def respTask (r : Resp) : Option Task :=
  match r.data with
  | RData.taskData t => some t
  | _ => none

/-- `user_exists` from the source. -/
def user_exists (s : Store) (uid : Int) : Bool :=
  s.users.any (fun u => u.id == uid)

/-- `find_task` from the source. -/
def find_task (s : Store) (tid : Int) : Option Task :=
  s.tasks.find? (fun t => t.id == tid)

/-- Python `max(l, default=d)`. -/
def pyMaxD (l : List Int) (d : Int) : Int :=
  match l with
  | [] => d
  | x :: xs => xs.foldl max x

/-- `get_next_task_id` from the source: `max((t["id"] for t in tasks), default=0) + 1`. -/
def get_next_task_id (s : Store) : Int :=
  pyMaxD (s.tasks.map (fun t => t.id)) 0 + 1

/-- Replace the first element satisfying `p` by `a` (models in-place mutation
of the record found by a linear scan). -/
def replaceFirstBy (p : α → Bool) (a : α) : List α → List α
  | [] => []
  | x :: xs => if p x then a :: xs else x :: replaceFirstBy p a xs

/-- Remove the first element satisfying `p` (models Python `list.remove`). -/
def eraseFirstBy (p : α → Bool) : List α → List α
  | [] => []
  | x :: xs => if p x then xs else x :: eraseFirstBy p xs

/-- `GET /users/<id>` (`get_user`). -/
def get_user (s : Store) (uid : Int) : Resp :=
  match s.users.find? (fun u => u.id == uid) with
  | none => ⟨404, RData.aborted⟩
  | some u => ⟨200, RData.userData u⟩

/-- `POST /users` (`create_user`): `abort(400)` when the body is missing,
unparseable, an empty object (falsy), or lacks `name`; otherwise append a user
whose id is `users[-1]["id"] + 1 if users else 1`. -/
def create_user (s : Store) (body : Option Obj) : Resp × Store :=
  match body with
  | none => (⟨400, RData.aborted⟩, s)
  | some data =>
    if data.isEmpty || !hasKey data "name" then
      (⟨400, RData.aborted⟩, s)
    else
      let newId : Int :=
        match s.users.getLast? with
        | none => 1
        | some u => u.id + 1
      let nu : User := ⟨newId, pyGet data "name", pyGetD data "age" (jint 0)⟩
      (⟨201, RData.userData nu⟩, { s with users := s.users ++ [nu] })

/-- `PUT /users/<id>` (`update_user`): 404 if absent, `abort(400)` on
missing/empty body, else set `name`/`age` from the body with the current
values as defaults. -/
def update_user (s : Store) (uid : Int) (body : Option Obj) : Resp × Store :=
  match s.users.find? (fun u => u.id == uid) with
  | none => (⟨404, RData.aborted⟩, s)
  | some u =>
    match body with
    | none => (⟨400, RData.aborted⟩, s)
    | some data =>
      if data.isEmpty then
        (⟨400, RData.aborted⟩, s)
      else
        let u' : User := ⟨u.id, pyGetD data "name" u.name, pyGetD data "age" u.age⟩
        (⟨200, RData.userData u'⟩,
         { s with users := replaceFirstBy (fun x => x.id == uid) u' s.users })

/-- `DELETE /users/<id>` (`delete_user`): filter, always 204. -/
def delete_user (s : Store) (uid : Int) : Resp × Store :=
  (⟨204, RData.empty⟩, { s with users := s.users.filter (fun u => !(u.id == uid)) })

/-- `GET /tasks/<id>` (`get_task`). -/
def get_task (s : Store) (tid : Int) : Resp :=
  match find_task s tid with
  | none => ⟨404, RData.errMsg "Task not found"⟩
  | some t => ⟨200, RData.taskData t⟩

/-- `POST /tasks` (`create_task`), with the validation chain in source order. -/
def create_task (s : Store) (body : Option Obj) : Resp × Store :=
  match body with
  | none => (⟨400, RData.errMsg "Invalid JSON in request body"⟩, s)
  | some data =>
    let title := pyGet data "title"
    let uidv := pyGet data "user_id"
    if title == jnull || pyStrip (pyStr title) == "" then
      (⟨400, RData.errMsg "Missing required field: title"⟩, s)
    else if uidv == jnull then
      (⟨400, RData.errMsg "Missing required field: user_id"⟩, s)
    else if !isIntLike uidv then
      (⟨400, RData.errMsg "user_id must be an integer"⟩, s)
    else if !user_exists s (pyToInt uidv) then
      (⟨400, RData.errMsg "Invalid user_id (user doesn't exist)"⟩, s)
    else
      let nt : Task :=
        ⟨get_next_task_id s,
         pyStrip (pyStr title),
         pyStr (pyGetD data "description" (jstr "")),
         pyToInt uidv,
         truthy (pyGetD data "completed" (jbool false))⟩
      (⟨201, RData.taskData nt⟩, { s with tasks := s.tasks ++ [nt] })

/-- The title/description phase of `update_task`: both fields have been applied
in place by the time the `user_id` checks run. -/
def applyTitleDesc (t : Task) (data : Obj) : Task :=
  let t1 := if hasKey data "title" then
              { t with title := pyStrip (pyStr (pyGet data "title")) }
            else t
  if hasKey data "description" then
    { t1 with description := pyStr (pyGet data "description") }
  else t1

/-- `PUT /tasks/<id>` (`update_task`). Faithful to the in-place mutation of the
source: a failure at the `user_id` checks returns 400 with the title and
description assignments from the same body already applied to the stored task. -/
def update_task (s : Store) (tid : Int) (body : Option Obj) : Resp × Store :=
  match find_task s tid with
  | none => (⟨404, RData.errMsg "Task not found"⟩, s)
  | some t =>
    match body with
    | none => (⟨400, RData.errMsg "Invalid JSON in request body"⟩, s)
    | some data =>
      if hasKey data "title" && pyStrip (pyStr (pyGet data "title")) == "" then
        (⟨400, RData.errMsg "title cannot be empty"⟩, s)
      else
        let t2 := applyTitleDesc t data
        if hasKey data "user_id" then
          let v := pyGet data "user_id"
          if !isIntLike v then
            (⟨400, RData.errMsg "user_id must be an integer"⟩,
             { s with tasks := replaceFirstBy (fun x => x.id == tid) t2 s.tasks })
          else if !user_exists s (pyToInt v) then
            (⟨400, RData.errMsg "Invalid user_id (user doesn't exist)"⟩,
             { s with tasks := replaceFirstBy (fun x => x.id == tid) t2 s.tasks })
          else
            let t3 := { t2 with user_id := pyToInt v }
            let t4 := if hasKey data "completed" then
                        { t3 with completed := truthy (pyGet data "completed") }
                      else t3
            (⟨200, RData.taskData t4⟩,
             { s with tasks := replaceFirstBy (fun x => x.id == tid) t4 s.tasks })
        else
          let t4 := if hasKey data "completed" then
                      { t2 with completed := truthy (pyGet data "completed") }
                    else t2
          (⟨200, RData.taskData t4⟩,
           { s with tasks := replaceFirstBy (fun x => x.id == tid) t4 s.tasks })

/-- `DELETE /tasks/<id>` (`delete_task`): 404 if absent, else remove the found
record by value equality (`tasks.remove(task)`). -/
def delete_task (s : Store) (tid : Int) : Resp × Store :=
  match find_task s tid with
  | none => (⟨404, RData.errMsg "Task not found"⟩, s)
  | some t =>
    (⟨204, RData.empty⟩,
     { s with tasks := eraseFirstBy (fun x => decide (x = t)) s.tasks })

/-- `GET /users/<id>/tasks` (`get_tasks_for_user`). -/
def get_tasks_for_user (s : Store) (uid : Int) : Resp :=
  if !user_exists s uid then
    ⟨404, RData.errMsg "User not found"⟩
  else
    ⟨200, RData.tasksData (s.tasks.filter (fun t => t.user_id == uid))⟩

/-- The Store-mutating operations of the service (the remaining handlers are
pure reads and never touch the Store). -/
inductive Op where
  | uCreate : Option Obj → Op
  | uUpdate : Int → Option Obj → Op
  | uDelete : Int → Op
  | tCreate : Option Obj → Op
  | tUpdate : Int → Option Obj → Op
  | tDelete : Int → Op

/-- The Store after one operation (the response is discarded). -/
def applyOp (s : Store) : Op → Store
  | Op.uCreate b => (create_user s b).2
  | Op.uUpdate i b => (update_user s i b).2
  | Op.uDelete i => (delete_user s i).2
  | Op.tCreate b => (create_task s b).2
  | Op.tUpdate i b => (update_task s i b).2
  | Op.tDelete i => (delete_task s i).2

/-- The Store reached by running a sequence of operations from the seed data. -/
def runOps (l : List Op) : Store :=
  l.foldl applyOp initStore

/-- Modelled from the spec (§3, User `id`): the id the spec says a new user
receives, `max(existing ids) + 1` (or `1` if empty). Stated for comparison with
the code, which uses `users[-1]["id"] + 1`. -/
def spec_next_user_id (s : Store) : Int :=
  pyMaxD (s.users.map (fun u => u.id)) 0 + 1

/-! ### List lemmas -/

theorem le_foldl_max (l : List Int) (a : Int) : a ≤ l.foldl max a := by
  induction l generalizing a with
  | nil => exact le_refl a
  | cons x xs ih => exact le_trans (le_max_left a x) (ih (max a x))

theorem mem_le_foldl_max (l : List Int) (a x : Int) (hx : x ∈ l) : x ≤ l.foldl max a := by
  induction l generalizing a with
  | nil => cases hx
  | cons y ys ih =>
    rcases List.mem_cons.mp hx with h | h
    · subst h
      exact le_trans (le_max_right a x) (le_foldl_max ys (max a x))
    · exact ih (max a y) h

theorem le_pyMaxD (l : List Int) (d x : Int) (hx : x ∈ l) : x ≤ pyMaxD l d := by
  cases l with
  | nil => cases hx
  | cons y ys =>
    rcases List.mem_cons.mp hx with h | h
    · subst h; exact le_foldl_max ys x
    · exact mem_le_foldl_max ys y x h

theorem foldl_max_mem (l : List Int) (a : Int) : l.foldl max a = a ∨ l.foldl max a ∈ l := by
  induction l generalizing a with
  | nil => exact Or.inl rfl
  | cons x xs ih =>
    rcases ih (max a x) with h | h
    · rcases max_choice a x with hm | hm
      · exact Or.inl (by rw [List.foldl_cons, h, hm])
      · exact Or.inr (by rw [List.foldl_cons, h, hm]; exact List.mem_cons_self x xs)
    · exact Or.inr (List.mem_cons_of_mem x h)

theorem pyMaxD_mem (l : List Int) (d : Int) (h : l ≠ []) : pyMaxD l d ∈ l := by
  cases l with
  | nil => exact absurd rfl h
  | cons y ys =>
    rcases foldl_max_mem ys y with hm | hm
    · rw [pyMaxD, hm]; exact List.mem_cons_self y ys
    · exact List.mem_cons_of_mem y hm

theorem mem_of_getLast?_eq (l : List α) (y : α) (h : l.getLast? = some y) : y ∈ l := by
  induction l with
  | nil => cases h
  | cons x xs ih =>
    cases xs with
    | nil =>
      simp only [List.getLast?_singleton, Option.some.injEq] at h
      subst h; exact List.mem_cons_self x []
    | cons z zs =>
      rw [List.getLast?_cons_cons] at h
      exact List.mem_cons_of_mem x (ih h)

theorem pairwise_lt_le_getLast (l : List Int) (y : Int)
    (h : List.Pairwise (· < ·) l) (hy : l.getLast? = some y) :
    ∀ x ∈ l, x ≤ y := by
  induction l with
  | nil => cases hy
  | cons a as ih =>
    rcases List.pairwise_cons.mp h with ⟨ha, has⟩
    intro x hx
    rcases List.mem_cons.mp hx with hxa | hxas
    · subst hxa
      cases as with
      | nil =>
        simp only [List.getLast?_singleton, Option.some.injEq] at hy
        exact le_of_eq hy
      | cons z zs =>
        rw [List.getLast?_cons_cons] at hy
        exact le_of_lt (ha y (mem_of_getLast?_eq _ y hy))
    · cases as with
      | nil => cases hxas
      | cons z zs =>
        rw [List.getLast?_cons_cons] at hy
        exact ih has hy x hxas

theorem pyMaxD_eq_getLast (l : List Int) (y : Int)
    (h : List.Pairwise (· < ·) l) (hy : l.getLast? = some y) : pyMaxD l 0 = y := by
  have hne : l ≠ [] := by intro he; rw [he] at hy; cases hy
  exact le_antisymm
    (pairwise_lt_le_getLast l y h hy _ (pyMaxD_mem l 0 hne))
    (le_pyMaxD l 0 y (mem_of_getLast?_eq l y hy))

theorem map_replaceFirstBy (f : α → β) (p : α → Bool) (a : α) (l : List α)
    (h : ∀ x, p x = true → f x = f a) :
    (replaceFirstBy p a l).map f = l.map f := by
  induction l with
  | nil => rfl
  | cons x xs ih =>
    by_cases hp : p x = true
    · simp only [replaceFirstBy, if_pos hp, List.map_cons, h x hp]
    · simp only [replaceFirstBy, if_neg hp, List.map_cons, ih]

theorem eraseFirstBy_sublist (p : α → Bool) (l : List α) :
    (eraseFirstBy p l).Sublist l := by
  induction l with
  | nil => exact List.Sublist.refl []
  | cons x xs ih =>
    by_cases hp : p x = true
    · rw [eraseFirstBy, if_pos hp]; exact List.sublist_cons_self x xs
    · rw [eraseFirstBy, if_neg hp]; exact List.Sublist.cons₂ x ih

theorem forall₂_replaceFirstBy_find {R : α → α → Prop} (p : α → Bool) (t a : α)
    (l : List α) (hf : l.find? p = some t) (hrefl : ∀ x, R x x) (hR : R t a) :
    List.Forall₂ R l (replaceFirstBy p a l) := by
  induction l with
  | nil => cases hf
  | cons x xs ih =>
    by_cases hp : p x = true
    · rw [List.find?_cons_of_pos _ hp, Option.some.injEq] at hf
      rw [replaceFirstBy, if_pos hp]
      exact List.Forall₂.cons (hf ▸ hR) (List.forall₂_same.mpr fun y _ => hrefl y)
    · rw [List.find?_cons_of_neg _ (by simpa using hp)] at hf
      rw [replaceFirstBy, if_neg hp]
      exact List.Forall₂.cons (hrefl x) (ih hf)

/-! ### Store invariant: user ids strictly increase along the list,
task ids are distinct. Both hold for the seed data and are preserved by
every operation. -/

def StoreInv (s : Store) : Prop :=
  List.Pairwise (· < ·) (s.users.map (fun u => u.id)) ∧
  (s.tasks.map (fun t => t.id)).Nodup

theorem storeInv_init : StoreInv initStore := by
  constructor <;> decide

theorem applyTitleDesc_id (t : Task) (data : Obj) : (applyTitleDesc t data).id = t.id := by
  unfold applyTitleDesc
  split <;> split <;> rfl

theorem find_task_id (s : Store) (tid : Int) (t : Task)
    (hf : find_task s tid = some t) : t.id = tid := by
  have hf' : List.find? (fun x => x.id == tid) s.tasks = some t := hf
  have hp := List.find?_some hf'
  simp only [beq_iff_eq] at hp
  exact hp

theorem storeInv_replace_task (s : Store) (tid : Int) (t t' : Task)
    (hf : find_task s tid = some t) (hid : t'.id = t.id) (h : StoreInv s) :
    StoreInv ⟨s.users, replaceFirstBy (fun x => x.id == tid) t' s.tasks⟩ := by
  obtain ⟨hu, ht⟩ := h
  refine ⟨hu, ?_⟩
  rw [map_replaceFirstBy (fun x => x.id) (fun x => x.id == tid) t' s.tasks]
  · exact ht
  · intro x hx
    have hx' : x.id = tid := beq_iff_eq.mp hx
    rw [hx', hid, find_task_id s tid t hf]

theorem storeInv_create_user (s : Store) (b : Option Obj) (h : StoreInv s) :
    StoreInv (create_user s b).2 := by
  obtain ⟨hu, ht⟩ := h
  cases b with
  | none => exact ⟨hu, ht⟩
  | some data =>
    simp only [create_user]
    by_cases hc : (data.isEmpty || !hasKey data "name") = true
    · rw [if_pos hc]; exact ⟨hu, ht⟩
    · rw [if_neg hc]
      refine ⟨?_, ht⟩
      rw [List.map_append, List.pairwise_append]
      refine ⟨hu, List.pairwise_singleton _ _, ?_⟩
      intro x hx y hy
      simp only [List.map_cons, List.map_nil, List.mem_singleton] at hy
      subst hy
      split
      · next hg =>
        rw [List.getLast?_eq_none_iff.mp hg] at hx
        cases hx
      · next u hg =>
        have hlast : (s.users.map (fun v => v.id)).getLast? = some u.id := by
          rw [List.getLast?_map, hg]; rfl
        have := pairwise_lt_le_getLast _ u.id hu hlast x hx
        omega

theorem storeInv_update_user (s : Store) (uid : Int) (b : Option Obj) (h : StoreInv s) :
    StoreInv (update_user s uid b).2 := by
  obtain ⟨hu, ht⟩ := h
  simp only [update_user]
  cases hf : s.users.find? (fun x => x.id == uid) with
  | none => exact ⟨hu, ht⟩
  | some u =>
    cases b with
    | none => exact ⟨hu, ht⟩
    | some data =>
      by_cases hc : data.isEmpty = true
      · exact ⟨by simp only [if_pos hc]; exact hu, by simp only [if_pos hc]; exact ht⟩
      · refine ⟨?_, by simp only [if_neg hc]; exact ht⟩
        simp only [if_neg hc]
        have hmap := map_replaceFirstBy (fun x => x.id) (fun x => x.id == uid)
          (⟨u.id, pyGetD data "name" u.name, pyGetD data "age" u.age⟩ : User) s.users
          (fun x hx => by
            have hxb := hx
            have hub := List.find?_some hf
            simp only [beq_iff_eq] at hxb hub
            show x.id = u.id
            rw [hxb, hub])
        exact hmap.symm ▸ hu

theorem storeInv_delete_user (s : Store) (uid : Int) (h : StoreInv s) :
    StoreInv (delete_user s uid).2 := by
  obtain ⟨hu, ht⟩ := h
  refine ⟨?_, ht⟩
  exact List.Pairwise.sublist (List.Sublist.map _ (List.filter_sublist s.users)) hu

theorem storeInv_create_task (s : Store) (b : Option Obj) (h : StoreInv s) :
    StoreInv (create_task s b).2 := by
  obtain ⟨hu, ht⟩ := h
  cases b with
  | none => exact ⟨hu, ht⟩
  | some data =>
    simp only [create_task]
    split
    · exact ⟨hu, ht⟩
    · split
      · exact ⟨hu, ht⟩
      · split
        · exact ⟨hu, ht⟩
        · split
          · exact ⟨hu, ht⟩
          · refine ⟨hu, ?_⟩
            rw [List.map_append, List.nodup_append]
            refine ⟨ht, List.nodup_singleton _, ?_⟩
            intro x hx hx'
            simp only [List.map_cons, List.map_nil, List.mem_singleton] at hx'
            have hle := le_pyMaxD (s.tasks.map (fun t => t.id)) 0 x hx
            rw [hx'] at hle
            simp only [get_next_task_id] at hle
            omega

theorem storeInv_update_task (s : Store) (tid : Int) (b : Option Obj) (h : StoreInv s) :
    StoreInv (update_task s tid b).2 := by
  simp only [update_task]
  split
  · exact h
  · next t hf =>
    split
    · exact h
    · next data =>
      split
      · exact h
      · split
        · split
          · exact storeInv_replace_task s tid t _ hf (applyTitleDesc_id t data) h
          · split
            · exact storeInv_replace_task s tid t _ hf (applyTitleDesc_id t data) h
            · refine storeInv_replace_task s tid t _ hf ?_ h
              split <;> exact applyTitleDesc_id t data
        · refine storeInv_replace_task s tid t _ hf ?_ h
          split <;> exact applyTitleDesc_id t data

theorem storeInv_delete_task (s : Store) (tid : Int) (h : StoreInv s) :
    StoreInv (delete_task s tid).2 := by
  obtain ⟨hu, ht⟩ := h
  simp only [delete_task]
  cases hf : find_task s tid with
  | none => exact ⟨hu, ht⟩
  | some t =>
    refine ⟨hu, ?_⟩
    exact List.Nodup.sublist (List.Sublist.map _ (eraseFirstBy_sublist _ s.tasks)) ht

theorem storeInv_applyOp (s : Store) (op : Op) (h : StoreInv s) : StoreInv (applyOp s op) := by
  cases op with
  | uCreate b => exact storeInv_create_user s b h
  | uUpdate i b => exact storeInv_update_user s i b h
  | uDelete i => exact storeInv_delete_user s i h
  | tCreate b => exact storeInv_create_task s b h
  | tUpdate i b => exact storeInv_update_task s i b h
  | tDelete i => exact storeInv_delete_task s i h

theorem storeInv_foldl (l : List Op) (s : Store) (h : StoreInv s) :
    StoreInv (l.foldl applyOp s) := by
  induction l generalizing s with
  | nil => exact h
  | cons op ops ih => exact ih (applyOp s op) (storeInv_applyOp s op h)

/-- Every Store reachable from the seed data satisfies the invariant. -/
theorem storeInv_runOps (l : List Op) : StoreInv (runOps l) :=
  storeInv_foldl l initStore storeInv_init

/-! ### Claim theorems -/

/-- Claim C8: `DELETE /users/id` always returns 204 with an empty body, whether
or not a user with that id exists; a second delete of the same id also returns
204; after the delete no user with that id remains, users with other ids all
survive, in their original order, and the tasks are untouched. -/
theorem delete_user_always_204 (s : Store) (uid : Int) :
    (delete_user s uid).1 = ⟨204, RData.empty⟩ ∧
    (delete_user (delete_user s uid).2 uid).1 = ⟨204, RData.empty⟩ ∧
    (∀ u ∈ (delete_user s uid).2.users, u.id ≠ uid) ∧
    ((delete_user s uid).2.users).Sublist s.users ∧
    (∀ u ∈ s.users, u.id ≠ uid → u ∈ (delete_user s uid).2.users) ∧
    (delete_user s uid).2.tasks = s.tasks := by
  refine ⟨rfl, rfl, ?_, List.filter_sublist s.users, ?_, rfl⟩
  · intro u hu
    have hp := List.of_mem_filter hu
    simpa using hp
  · intro u hu hne
    exact List.mem_filter.mpr ⟨hu, by simpa using hne⟩

/-- Claim C8 witness at a concrete input. -/
theorem delete_user_always_204_witness :
    (delete_user initStore 1).1 = ⟨204, RData.empty⟩ ∧
    (delete_user (delete_user initStore 1).2 1).1 = ⟨204, RData.empty⟩ :=
  ⟨(delete_user_always_204 initStore 1).1, (delete_user_always_204 initStore 1).2.1⟩

/-- Claim C9: `GET /users/id/tasks` returns 404 with a "User not found" body
when no user with that id exists, and otherwise 200 with exactly the tasks
whose `user_id` equals the requested id, in insertion order; an existing user
with no matching tasks gets the empty list with 200. -/
theorem get_tasks_for_user_spec (s : Store) (uid : Int) :
    (user_exists s uid = true ↔ ∃ u ∈ s.users, u.id = uid) ∧
    (user_exists s uid = false →
      get_tasks_for_user s uid = ⟨404, RData.errMsg "User not found"⟩) ∧
    (user_exists s uid = true →
      get_tasks_for_user s uid =
        ⟨200, RData.tasksData (s.tasks.filter (fun t => t.user_id == uid))⟩) ∧
    (user_exists s uid = true → (∀ t ∈ s.tasks, t.user_id ≠ uid) →
      get_tasks_for_user s uid = ⟨200, RData.tasksData []⟩) := by
  refine ⟨?_, ?_, ?_, ?_⟩
  · simp [user_exists, List.any_eq_true]
  · intro hex
    simp [get_tasks_for_user, hex]
  · intro hex
    simp [get_tasks_for_user, hex]
  · intro hex hno
    have hfil : s.tasks.filter (fun t => t.user_id == uid) = [] := by
      rw [List.filter_eq_nil_iff]
      intro t ht
      simpa using hno t ht
    simp [get_tasks_for_user, hex, hfil]

/-- Claim C9 witness at concrete inputs: the seed user 1 has exactly the task
"Learn REST"; user 999 does not exist and gets 404. -/
theorem get_tasks_for_user_spec_witness :
    get_tasks_for_user initStore 1 =
      ⟨200, RData.tasksData [⟨1, "Learn REST", "Study REST principles", 1, true⟩]⟩ ∧
    get_tasks_for_user initStore 999 = ⟨404, RData.errMsg "User not found"⟩ := by
  constructor
  · have h := ((get_tasks_for_user_spec initStore 1).2.2.1) (by decide)
    rw [h]
    rfl
  · exact ((get_tasks_for_user_spec initStore 999).2.1) (by decide)

/-- Claim C5: a task-create body whose title is present but whitespace-only
fails with 400 and the same "Missing required field: title" error as an absent
title, leaving the Store unchanged. -/
theorem create_task_whitespace_title (s : Store) (data : Obj) (str : String)
    (hT : objGet? data "title" = some (JVal.jstr str)) (hws : pyStrip str = "") :
    create_task s (some data) =
      (⟨400, RData.errMsg "Missing required field: title"⟩, s) := by
  simp only [create_task, pyGet, hT, Option.getD_some]
  rw [if_pos]
  simp [pyStr, hws]

/-- Claim C5 witness: `title: "   "` on the seed store. -/
theorem create_task_whitespace_title_witness :
    create_task initStore (some [("title", JVal.jstr "   "), ("user_id", JVal.jint 1)]) =
      (⟨400, RData.errMsg "Missing required field: title"⟩, initStore) :=
  create_task_whitespace_title initStore _ "   " rfl rfl

/-- Claim C6: a task-create body whose user_id is an integer matching no
existing user fails with status 400, and the tasks collection is unchanged. -/
theorem create_task_invalid_user (s : Store) (data : Obj) (n : Int)
    (hU : pyGet data "user_id" = JVal.jint n)
    (hno : ∀ u ∈ s.users, u.id ≠ n) :
    (create_task s (some data)).1.status = 400 ∧
    (create_task s (some data)).2.tasks = s.tasks := by
  have hex : user_exists s n = false := by
    simp only [user_exists, List.any_eq_false]
    intro u hu
    simpa using hno u hu
  simp only [create_task, hU]
  split
  · exact ⟨rfl, rfl⟩
  · split
    · exact ⟨rfl, rfl⟩
    · split
      · exact ⟨rfl, rfl⟩
      · split
        · exact ⟨rfl, rfl⟩
        · next hcond =>
          exfalso
          simp only [pyToInt, hex] at hcond
          exact hcond rfl

/-- Claim C3: `create_task` validates in exactly the source order — unparseable
body, then absent/blank title, then absent user_id, then non-integer user_id
(in the Python sense, where a boolean counts as an integer), then non-existent
user — and for a body violating several checks the error of the earliest
violated check is returned, with the Store unchanged. -/
theorem create_task_validation_order (s : Store) (data : Obj) :
    (create_task s none = (⟨400, RData.errMsg "Invalid JSON in request body"⟩, s)) ∧
    ((pyGet data "title" = JVal.jnull ∨ pyStrip (pyStr (pyGet data "title")) = "") →
      create_task s (some data) = (⟨400, RData.errMsg "Missing required field: title"⟩, s)) ∧
    (pyGet data "title" ≠ JVal.jnull → pyStrip (pyStr (pyGet data "title")) ≠ "" →
      pyGet data "user_id" = JVal.jnull →
      create_task s (some data) = (⟨400, RData.errMsg "Missing required field: user_id"⟩, s)) ∧
    (pyGet data "title" ≠ JVal.jnull → pyStrip (pyStr (pyGet data "title")) ≠ "" →
      pyGet data "user_id" ≠ JVal.jnull → isIntLike (pyGet data "user_id") = false →
      create_task s (some data) = (⟨400, RData.errMsg "user_id must be an integer"⟩, s)) ∧
    (pyGet data "title" ≠ JVal.jnull → pyStrip (pyStr (pyGet data "title")) ≠ "" →
      pyGet data "user_id" ≠ JVal.jnull → isIntLike (pyGet data "user_id") = true →
      user_exists s (pyToInt (pyGet data "user_id")) = false →
      create_task s (some data) =
        (⟨400, RData.errMsg "Invalid user_id (user doesn't exist)"⟩, s)) := by
  refine ⟨rfl, ?_, ?_, ?_, ?_⟩
  · intro h
    rcases h with h | h <;> simp [create_task, h]
  · intro h1 h2 h3
    simp [create_task, h1, h2, h3]
  · intro h1 h2 h3 h4
    simp [create_task, h1, h2, h3, h4]
  · intro h1 h2 h3 h4 h5
    simp [create_task, h1, h2, h3, h4, h5]

/-- Claim C3 witness: a body violating the title, user_id-type and
user_id-existence checks at once is answered with the title error. -/
theorem create_task_validation_order_witness :
    create_task initStore (some [("user_id", JVal.jstr "x")]) =
      (⟨400, RData.errMsg "Missing required field: title"⟩, initStore) :=
  (create_task_validation_order initStore [("user_id", JVal.jstr "x")]).2.1 (Or.inl rfl)

/-- Claim C10 counterexample: JSON null is a non-string JSON value whose string
rendering ("None") is non-empty after trimming, and user 1 exists in the seed
store, yet a create with `title: null` fails 400 with the missing-title error
instead of succeeding with 201 as the claim states. -/
theorem create_task_null_title_cex :
    pyStrip (pyStr JVal.jnull) ≠ "" ∧
    user_exists initStore 1 = true ∧
    create_task initStore (some [("title", JVal.jnull), ("user_id", JVal.jint 1)]) =
      (⟨400, RData.errMsg "Missing required field: title"⟩, initStore) :=
  ⟨by decide, by decide, by decide⟩

/-- Claim C10 (amended): for every body whose title is a non-string, non-null
JSON value with a non-empty trimmed string rendering and whose user_id is an
existing integer id, the create succeeds with 201 and stores the trimmed
rendering as the title; the stored completed field is the truthiness of the
body's completed value of any JSON type (false when the field is absent).
The theorem places no condition on the completed or description fields and
does not restrict the title to non-strings, which subsumes the claim. -/
theorem create_task_nonstring_title (s : Store) (data : Obj) (v : JVal) (n : Int)
    (hT : objGet? data "title" = some v) (hnn : v ≠ JVal.jnull)
    (hne : pyStrip (pyStr v) ≠ "")
    (hU : objGet? data "user_id" = some (JVal.jint n))
    (hex : user_exists s n = true) :
    (create_task s (some data)).1.status = 201 ∧
    respTask (create_task s (some data)).1 =
      some ⟨get_next_task_id s, pyStrip (pyStr v),
            pyStr (pyGetD data "description" (JVal.jstr "")), n,
            truthy (pyGetD data "completed" (JVal.jbool false))⟩ ∧
    (create_task s (some data)).2.tasks =
      s.tasks ++ [⟨get_next_task_id s, pyStrip (pyStr v),
                  pyStr (pyGetD data "description" (JVal.jstr "")), n,
                  truthy (pyGetD data "completed" (JVal.jbool false))⟩] ∧
    (∀ w, objGet? data "completed" = some w →
      truthy (pyGetD data "completed" (JVal.jbool false)) = truthy w) := by
  have heq : create_task s (some data) =
      (⟨201, RData.taskData ⟨get_next_task_id s, pyStrip (pyStr v),
          pyStr (pyGetD data "description" (JVal.jstr "")), n,
          truthy (pyGetD data "completed" (JVal.jbool false))⟩⟩,
       { s with tasks := s.tasks ++ [⟨get_next_task_id s, pyStrip (pyStr v),
          pyStr (pyGetD data "description" (JVal.jstr "")), n,
          truthy (pyGetD data "completed" (JVal.jbool false))⟩] }) := by
    simp only [create_task, pyGet, hT, hU, Option.getD_some]
    rw [if_neg (by simp [hnn, hne]), if_neg (by simp), if_neg (by simp [isIntLike]),
      if_neg (by simp [pyToInt, hex])]
    rfl
  exact ⟨by rw [heq], by rw [heq]; rfl, by rw [heq],
    fun w hw => by rw [pyGetD, hw, Option.getD_some]⟩

/-- Claim C10 witness: an integer title 123 with no completed field is accepted
and stored as "123" with completed false; a boolean title `false` with an
integer completed 7 is stored as "False" with completed true. -/
theorem create_task_nonstring_title_witness :
    (create_task initStore
        (some [("title", JVal.jint 123), ("user_id", JVal.jint 1)])).1.status = 201 ∧
    respTask (create_task initStore
        (some [("title", JVal.jint 123), ("user_id", JVal.jint 1)])).1 =
      some ⟨3, "123", "", 1, false⟩ ∧
    respTask (create_task initStore
        (some [("title", JVal.jbool false), ("user_id", JVal.jint 1),
               ("completed", JVal.jint 7)])).1 =
      some ⟨3, "False", "", 1, true⟩ := by
  have h1 := create_task_nonstring_title initStore
    [("title", JVal.jint 123), ("user_id", JVal.jint 1)]
    (JVal.jint 123) 1 rfl (by decide) (by decide) rfl (by decide)
  have h2 := create_task_nonstring_title initStore
    [("title", JVal.jbool false), ("user_id", JVal.jint 1), ("completed", JVal.jint 7)]
    (JVal.jbool false) 1 rfl (by decide) (by decide) rfl (by decide)
  exact ⟨h1.1, h1.2.1, h2.2.1⟩

/-- Claim C1 counterexample: updating seed task 1 with a valid title together
with an invalid user_id returns 400, yet the Store differs afterwards — the
targeted task's title has already been overwritten when the 400 is produced. -/
theorem update_task_not_atomic_cex :
    (update_task initStore 1
        (some [("title", JVal.jstr "Hacked"), ("user_id", JVal.jint 999)])).1 =
      ⟨400, RData.errMsg "Invalid user_id (user doesn't exist)"⟩ ∧
    (update_task initStore 1
        (some [("title", JVal.jstr "Hacked"), ("user_id", JVal.jint 999)])).2 ≠ initStore ∧
    (update_task initStore 1
        (some [("title", JVal.jstr "Hacked"), ("user_id", JVal.jint 999)])).2.tasks.map
        (fun t => t.title) = ["Hacked", "Build API"] ∧
    initStore.tasks.map (fun t => t.title) = ["Learn REST", "Build API"] :=
  ⟨by decide, by decide, by decide, by decide⟩

/-- Claim C1 (amended): every failing user create/update, task create and task
delete leaves the Store unchanged (user delete never fails), and so does a task
update failing on a missing task, an unparseable body or an empty trimmed
title; but a task update failing on the user_id checks leaves the Store with
the title/description assignments of the same body already applied to the
targeted task. -/
theorem op_failure_store_effects :
    (∀ (s : Store) (b : Option Obj),
      (create_user s b).1.status ≠ 201 → (create_user s b).2 = s) ∧
    (∀ (s : Store) (i : Int) (b : Option Obj),
      (update_user s i b).1.status ≠ 200 → (update_user s i b).2 = s) ∧
    (∀ (s : Store) (i : Int), (delete_user s i).1.status = 204) ∧
    (∀ (s : Store) (b : Option Obj),
      (create_task s b).1.status ≠ 201 → (create_task s b).2 = s) ∧
    (∀ (s : Store) (i : Int),
      (delete_task s i).1.status ≠ 204 → (delete_task s i).2 = s) ∧
    (∀ (s : Store) (i : Int) (b : Option Obj),
      (update_task s i b).1.status = 404 → (update_task s i b).2 = s) ∧
    (∀ (s : Store) (i : Int) (b : Option Obj),
      (update_task s i b).1.data = RData.errMsg "Invalid JSON in request body" →
      (update_task s i b).2 = s) ∧
    (∀ (s : Store) (i : Int) (b : Option Obj),
      (update_task s i b).1.data = RData.errMsg "title cannot be empty" →
      (update_task s i b).2 = s) ∧
    (∀ (s : Store) (i : Int) (data : Obj) (t : Task), find_task s i = some t →
      ((update_task s i (some data)).1.data = RData.errMsg "user_id must be an integer" ∨
       (update_task s i (some data)).1.data =
         RData.errMsg "Invalid user_id (user doesn't exist)") →
      (update_task s i (some data)).2 =
        { s with tasks := replaceFirstBy (fun x => x.id == i) (applyTitleDesc t data) s.tasks }) := by
  refine ⟨?_, ?_, fun s i => rfl, ?_, ?_, ?_, ?_, ?_, ?_⟩
  · intro s b h
    cases b with
    | none => rfl
    | some data =>
      simp only [create_user]
      split
      · rfl
      · next hc =>
        exfalso
        simp only [create_user] at h
        rw [if_neg hc] at h
        exact h rfl
  · intro s i b h
    cases b with
    | none =>
      simp only [update_user]
      split
      · rfl
      · rfl
    | some data =>
      simp only [update_user]
      split
      · rfl
      · next u hfind =>
        split
        · rfl
        · next hc =>
          exfalso
          simp only [update_user, hfind] at h
          rw [if_neg hc] at h
          exact h rfl
  · intro s b h
    cases b with
    | none => rfl
    | some data =>
      simp only [create_task]
      split
      · rfl
      · next hc1 =>
        split
        · rfl
        · next hc2 =>
          split
          · rfl
          · next hc3 =>
            split
            · rfl
            · next hc4 =>
              exfalso
              simp only [create_task] at h
              rw [if_neg hc1, if_neg hc2, if_neg hc3, if_neg hc4] at h
              exact h rfl
  · intro s i h
    simp only [delete_task]
    split
    · rfl
    · next t hfind =>
      exfalso
      simp only [delete_task, hfind] at h
      exact h rfl
  · intro s i b h
    cases b with
    | none =>
      simp only [update_task]
      split
      · rfl
      · rfl
    | some data =>
      simp only [update_task]
      split
      · rfl
      · next t hfind =>
        by_cases h1 : (hasKey data "title" && pyStrip (pyStr (pyGet data "title")) == "") = true
        · rw [if_pos h1]
        · rw [if_neg h1]
          exfalso
          simp only [update_task, hfind] at h
          rw [if_neg h1] at h
          split at h
          · split at h
            · cases h
            · split at h
              · cases h
              · cases h
          · cases h
  · intro s i b h
    cases b with
    | none =>
      simp only [update_task]
      split
      · rfl
      · rfl
    | some data =>
      simp only [update_task]
      split
      · rfl
      · next t hfind =>
        by_cases h1 : (hasKey data "title" && pyStrip (pyStr (pyGet data "title")) == "") = true
        · rw [if_pos h1]
        · rw [if_neg h1]
          exfalso
          simp only [update_task, hfind] at h
          rw [if_neg h1] at h
          split at h
          · split at h
            · simp at h
            · split at h
              · simp at h
              · simp at h
          · simp at h
  · intro s i b h
    cases b with
    | none =>
      simp only [update_task]
      split
      · rfl
      · rfl
    | some data =>
      simp only [update_task]
      split
      · rfl
      · next t hfind =>
        by_cases h1 : (hasKey data "title" && pyStrip (pyStr (pyGet data "title")) == "") = true
        · rw [if_pos h1]
        · rw [if_neg h1]
          exfalso
          simp only [update_task, hfind] at h
          rw [if_neg h1] at h
          split at h
          · split at h
            · simp at h
            · split at h
              · simp at h
              · simp at h
          · simp at h
  · intro s i data t hf h
    simp only [update_task, hf] at h ⊢
    by_cases h1 : (hasKey data "title" && pyStrip (pyStr (pyGet data "title")) == "") = true
    · exfalso
      rw [if_pos h1] at h
      rcases h with h | h <;> simp at h
    · rw [if_neg h1] at h ⊢
      by_cases h2 : hasKey data "user_id" = true
      · rw [if_pos h2] at h ⊢
        by_cases h3 : (!isIntLike (pyGet data "user_id")) = true
        · rw [if_pos h3]
        · rw [if_neg h3] at h ⊢
          by_cases h4 : (!user_exists s (pyToInt (pyGet data "user_id"))) = true
          · rw [if_pos h4]
          · exfalso
            rw [if_neg h4] at h
            rcases h with h | h <;> simp at h
      · exfalso
        rw [if_neg h2] at h
        rcases h with h | h <;> simp at h

/-- Claim C1 witness: a create with a missing body leaves the seed store
unchanged, and the title-applied shape of a user_id-failing task update at a
concrete input. -/
theorem op_failure_store_effects_witness :
    (create_task initStore none).2 = initStore ∧
    (update_task initStore 1
        (some [("title", JVal.jstr "New"), ("user_id", JVal.jint 77)])).2 =
      { initStore with
          tasks := replaceFirstBy (fun x => x.id == 1)
            (applyTitleDesc ⟨1, "Learn REST", "Study REST principles", 1, true⟩
              [("title", JVal.jstr "New"), ("user_id", JVal.jint 77)]) initStore.tasks } :=
  ⟨op_failure_store_effects.2.2.2.1 initStore none (by decide),
   op_failure_store_effects.2.2.2.2.2.2.2.2 initStore 1
     [("title", JVal.jstr "New"), ("user_id", JVal.jint 77)]
     ⟨1, "Learn REST", "Study REST principles", 1, true⟩ (by decide)
     (Or.inr (by decide))⟩

theorem applyTitleDesc_user_id (t : Task) (data : Obj) :
    (applyTitleDesc t data).user_id = t.user_id := by
  unfold applyTitleDesc
  split <;> split <;> rfl

theorem applyTitleDesc_completed (t : Task) (data : Obj) :
    (applyTitleDesc t data).completed = t.completed := by
  unfold applyTitleDesc
  split <;> split <;> rfl

theorem applyTitleDesc_title_frame (t : Task) (data : Obj)
    (h : hasKey data "title" = false) : (applyTitleDesc t data).title = t.title := by
  simp only [applyTitleDesc, h, Bool.false_eq_true, if_false]
  split <;> rfl

theorem applyTitleDesc_description_frame (t : Task) (data : Obj)
    (h : hasKey data "description" = false) :
    (applyTitleDesc t data).description = t.description := by
  simp only [applyTitleDesc, h, Bool.false_eq_true, if_false]
  split <;> rfl

/-- Claim C7: updating an existing task with a body holding only `completed`
succeeds with 200 and changes only that task's completed field — its other
fields and every other task are untouched; and in general, for any successful
update, fields absent from the body keep their previous values on the returned
task. -/
theorem update_task_completed_frame (s : Store) (tid : Int) (t : Task) (v : JVal)
    (data : Obj) (tf : Task) (hf : find_task s tid = some t) :
    ((update_task s tid (some [("completed", v)])).1 =
      ⟨200, RData.taskData { t with completed := truthy v }⟩) ∧
    ((update_task s tid (some [("completed", v)])).2.users = s.users) ∧
    List.Forall₂ (fun a b => b.id = a.id ∧ b.title = a.title ∧
        b.description = a.description ∧ b.user_id = a.user_id ∧ (a.id ≠ tid → b = a))
      s.tasks (update_task s tid (some [("completed", v)])).2.tasks ∧
    (respTask (update_task s tid (some data)).1 = some tf →
      tf.id = t.id ∧
      (hasKey data "title" = false → tf.title = t.title) ∧
      (hasKey data "description" = false → tf.description = t.description) ∧
      (hasKey data "user_id" = false → tf.user_id = t.user_id) ∧
      (hasKey data "completed" = false → tf.completed = t.completed)) := by
  have hkT : hasKey [("completed", v)] "title" = false := rfl
  have hkU : hasKey [("completed", v)] "user_id" = false := rfl
  have hkC : hasKey [("completed", v)] "completed" = true := rfl
  have hat : applyTitleDesc t [("completed", v)] = t := rfl
  have hff : s.tasks.find? (fun x => x.id == tid) = some t := hf
  refine ⟨?_, ?_, ?_, ?_⟩
  · simp [update_task, hf, hkT, hkU, hkC, hat]
    rfl
  · simp [update_task, hf, hkT, hkU, hkC, hat]
  · have hforall := @forall₂_replaceFirstBy_find Task
      (fun a b => b.id = a.id ∧ b.title = a.title ∧ b.description = a.description ∧
        b.user_id = a.user_id ∧ (a.id ≠ tid → b = a))
      (fun x => x.id == tid) t ({ t with completed := truthy v }) s.tasks hff
      (fun x => ⟨rfl, rfl, rfl, rfl, fun _ => rfl⟩)
      ⟨rfl, rfl, rfl, rfl, fun hne => absurd (find_task_id s tid t hf) hne⟩
    simpa [update_task, hf, hkT, hkU, hkC, hat] using hforall
  · intro hrt
    simp only [update_task, hf] at hrt
    split at hrt
    · simp [respTask] at hrt
    · split at hrt
      · split at hrt
        · simp [respTask] at hrt
        · split at hrt
          · simp [respTask] at hrt
          · next hU _ _ =>
            simp only [respTask, Option.some.injEq] at hrt
            subst hrt
            refine ⟨?_, ?_, ?_, ?_, ?_⟩
            · split <;> exact applyTitleDesc_id t data
            · intro hT
              split <;> exact applyTitleDesc_title_frame t data hT
            · intro hD
              split <;> exact applyTitleDesc_description_frame t data hD
            · intro habs
              rw [habs] at hU
              cases hU
            · intro habs
              rw [habs]
              simp only [Bool.false_eq_true, if_false]
              exact applyTitleDesc_completed t data
      · next hU =>
        simp only [respTask, Option.some.injEq] at hrt
        subst hrt
        refine ⟨?_, ?_, ?_, ?_, ?_⟩
        · split <;> exact applyTitleDesc_id t data
        · intro hT
          split <;> exact applyTitleDesc_title_frame t data hT
        · intro hD
          split <;> exact applyTitleDesc_description_frame t data hD
        · intro _
          split <;> exact applyTitleDesc_user_id t data
        · intro habs
          rw [habs]
          simp only [Bool.false_eq_true, if_false]
          exact applyTitleDesc_completed t data

/-- Claim C7 witness: `PUT /tasks/2 {"completed": true}` on the seed store
returns the task with only `completed` changed. -/
theorem update_task_completed_frame_witness :
    (update_task initStore 2 (some [("completed", JVal.jbool true)])).1 =
      ⟨200, RData.taskData ⟨2, "Build API", "Complete the assignment", 2, true⟩⟩ ∧
    (update_task initStore 2 (some [("completed", JVal.jbool true)])).2.users =
      initStore.users := by
  have h := update_task_completed_frame initStore 2
    ⟨2, "Build API", "Complete the assignment", 2, false⟩ (JVal.jbool true) []
    ⟨2, "Build API", "Complete the assignment", 2, false⟩ (by decide)
  exact ⟨h.1, h.2.1⟩

/-- Claim C2: in every reachable state of the users collection, a successful
user create appends a user whose id is max(existing ids) + 1 (1 when the
collection is empty), and the resulting user ids are pairwise distinct. -/
theorem create_user_assigns_max_plus_one (ops : List Op) (b : Option Obj)
    (h201 : (create_user (runOps ops) b).1.status = 201) :
    ((create_user (runOps ops) b).2.users.map (fun u => u.id)) =
      (runOps ops).users.map (fun u => u.id) ++ [spec_next_user_id (runOps ops)] ∧
    ((create_user (runOps ops) b).2.users.map (fun u => u.id)).Nodup := by
  have hinv := storeInv_runOps ops
  have hnodup : ((create_user (runOps ops) b).2.users.map (fun u => u.id)).Nodup :=
    ((storeInv_create_user (runOps ops) b hinv).1).nodup
  refine ⟨?_, hnodup⟩
  cases b with
  | none => simp [create_user] at h201
  | some data =>
    by_cases hc : (data.isEmpty || !hasKey data "name") = true
    · simp [create_user, hc] at h201
    · simp only [create_user, if_neg hc, List.map_append, List.map_cons, List.map_nil]
      congr 1
      cases hg : (runOps ops).users.getLast? with
      | none =>
        have hempty : (runOps ops).users = [] := List.getLast?_eq_none_iff.mp hg
        simp [spec_next_user_id, pyMaxD, hempty]
      | some u =>
        have hlast : ((runOps ops).users.map (fun v => v.id)).getLast? = some u.id := by
          rw [List.getLast?_map, hg]
          rfl
        have hmax := pyMaxD_eq_getLast _ u.id hinv.1 hlast
        simp [spec_next_user_id, hmax]

/-- Claim C2 witness: creating a user on the seed store assigns id 3 = max(1,2)+1. -/
theorem create_user_assigns_max_plus_one_witness :
    ((create_user (runOps []) (some [("name", JVal.jstr "Carol")])).2.users.map
        (fun u => u.id)) =
      (runOps []).users.map (fun u => u.id) ++ [spec_next_user_id (runOps [])] ∧
    ((create_user (runOps []) (some [("name", JVal.jstr "Carol")])).2.users.map
        (fun u => u.id)).Nodup :=
  create_user_assigns_max_plus_one [] (some [("name", JVal.jstr "Carol")]) rfl

/-- Claim C4 counterexample: starting from the seed data, create a task (it is
assigned id 3), delete task 3, then create again: the new task is again
assigned id 3, which is not strictly greater than the previously assigned
(since deleted) id 3 — ids of deleted tasks can be reused. -/
theorem create_task_id_reuse_cex :
    (runOps [Op.tCreate (some [("title", JVal.jstr "T"), ("user_id", JVal.jint 1)])]).tasks.map
        (fun t => t.id) = [1, 2, 3] ∧
    (runOps [Op.tCreate (some [("title", JVal.jstr "T"), ("user_id", JVal.jint 1)]),
             Op.tDelete 3,
             Op.tCreate (some [("title", JVal.jstr "T"), ("user_id", JVal.jint 1)])]).tasks.map
        (fun t => t.id) = [1, 2, 3] :=
  ⟨by decide, by decide⟩

/-- Claim C4 (amended): in every reachable state task ids are pairwise
distinct, and a successful create appends a task whose id is strictly greater
than every id currently in the collection (so uniqueness is maintained); ids of
tasks that were deleted earlier may however be reused. -/
theorem create_task_id_fresh (ops : List Op) (b : Option Obj)
    (h201 : (create_task (runOps ops) b).1.status = 201) :
    ((runOps ops).tasks.map (fun t => t.id)).Nodup ∧
    (∀ i ∈ (runOps ops).tasks.map (fun t => t.id), i < get_next_task_id (runOps ops)) ∧
    ((create_task (runOps ops) b).2.tasks.map (fun t => t.id)) =
      (runOps ops).tasks.map (fun t => t.id) ++ [get_next_task_id (runOps ops)] ∧
    ((create_task (runOps ops) b).2.tasks.map (fun t => t.id)).Nodup := by
  have hinv := storeInv_runOps ops
  refine ⟨hinv.2, ?_, ?_, (storeInv_create_task (runOps ops) b hinv).2⟩
  · intro i hi
    have := le_pyMaxD ((runOps ops).tasks.map (fun t => t.id)) 0 i hi
    simp only [get_next_task_id]
    omega
  · cases b with
    | none => simp [create_task] at h201
    | some data =>
      simp only [create_task]
      split
      · next hcond => simp [create_task, hcond] at h201
      · split
        · next hcond hcond2 =>
          simp [create_task, hcond, hcond2] at h201
        · split
          · next hcond hcond2 hcond3 =>
            simp [create_task, hcond, hcond2, hcond3] at h201
          · split
            · next hcond hcond2 hcond3 hcond4 =>
              simp [create_task, hcond, hcond2, hcond3, hcond4] at h201
            · simp

/-- Claim C4 witness: the first create from the seed data appends id 3 > 1, 2. -/
theorem create_task_id_fresh_witness :
    ((runOps []).tasks.map (fun t => t.id)).Nodup ∧
    ((create_task (runOps []) (some [("title", JVal.jstr "T"),
        ("user_id", JVal.jint 1)])).2.tasks.map (fun t => t.id)) =
      (runOps []).tasks.map (fun t => t.id) ++ [get_next_task_id (runOps [])] := by
  have h := create_task_id_fresh []
    (some [("title", JVal.jstr "T"), ("user_id", JVal.jint 1)]) (by decide)
  exact ⟨h.1, h.2.2.1⟩

/-- Claim C6 witness: `user_id: 999` on the seed store. -/
theorem create_task_invalid_user_witness :
    (create_task initStore (some [("title", JVal.jstr "T"), ("user_id", JVal.jint 999)])).1.status = 400 ∧
    (create_task initStore (some [("title", JVal.jstr "T"), ("user_id", JVal.jint 999)])).2.tasks =
      initStore.tasks :=
  create_task_invalid_user initStore _ 999 rfl (by decide)

end RestApi
